import Mathlib

/-!
Verification of the cyclic days-off workforce scheduler from
`logistics_classification.ipynb` (the workforce-planning notebook cells).

The notebook builds, for the canonical weekly case C = 7, W = 5, R = 2:
  * `n_staff`   : the per-day demand vector,
  * `n_days`    : the day indices `[0, …, 6]`,
  * `n_days_c`  : the tripled circular day list `ncycles(n_days, 3)`,
  * `list_in`   : per start day, the 5 working days, by slicing `n_days_c`
                  over `range(i, i+5)`,
  * `list_excl` : per day, the 2 excluded shifts, by slicing `n_days_c`
                  over `range(i+1, i+3)`,
  * a PuLP model with one non-negative integer variable per start day,
    objective `minimize sum of x_i`, and for each day `d` (zipping
    `n_days`, `list_excl`, `n_staff`) the constraint
    `sum of x_i over i not in list_excl[d] ≥ n_staff[d]`,
  * a schedule matrix `dict_sch` and the total headcount.

Decision variables are embedded as `ℕ`-valued functions (PuLP declares them
`Integer` with `lowBound=0`).  Python list indexing `n_days_c[j]` is embedded
as `List.getD _ j 0`; the safety claim shows every index used is in bounds,
so the default is never taken.
-/

/-- `ncycles(iterable, n)`: the sequence elements `n` times
(`chain.from_iterable(repeat(tuple(iterable), n))`). -/
def ncycles (l : List ℕ) : ℕ → List ℕ
  | 0 => []
  | n + 1 => l ++ ncycles l n

/-- `n_staff = [31,45,40,40,48,30,20]`: staff needed for each day. -/
def n_staff : List ℕ := [31, 45, 40, 40, 48, 30, 20]

/-- `n_days = [i for i in range(7)]`. -/
def n_days : List ℕ := List.range 7

/-- `n_days_c = list(ncycles(n_days, 3))`: circular list of days. -/
def n_days_c : List ℕ := ncycles n_days 3

/-- `[n_days_c[j] for j in range(i, i + 5)]`: the row of `list_in` for `i`. -/
def workRow (i : ℕ) : List ℕ := (List.range' i 5).map (fun j => n_days_c.getD j 0)

/-- `list_in = [[n_days_c[j] for j in range(i , i + 5)] for i in n_days_c]`:
working days per start day. -/
def list_in : List (List ℕ) := n_days_c.map workRow

/-- `[n_days_c[j] for j in range(i + 1, i + 3)]`: the row of `list_excl` for `i`. -/
def exclRow (i : ℕ) : List ℕ := (List.range' (i + 1) 2).map (fun j => n_days_c.getD j 0)

/-- `list_excl = [[n_days_c[j] for j in range(i + 1, i + 3)] for i in n_days_c]`:
workers off by shift for each day. -/
def list_excl : List (List ℕ) := n_days_c.map exclRow

/-- `[x[i] for i in n_days if i not in l_excl]`: the shifts summed in the
constraint whose exclusion list is `l_excl`. -/
def dayVars (l_excl : List ℕ) : List ℕ := n_days.filter (fun i => ¬ i ∈ l_excl)

/-- The constraint rows of the PuLP model, one per element of
`zip(n_days, list_excl, n_staff)` (generalised over the demand list):
`prob += lpSum([x[i] for i in n_days if i not in l_excl]) >= staff`.
A constraint is the pair (variable indices summed, right-hand side). -/
def buildConstraints (demand : List ℕ) : List (List ℕ × ℕ) :=
  ((n_days.zip list_excl).zip demand).map (fun p => (dayVars p.1.2, p.2))

/-- An assignment `x` satisfies the constraint `c` when the sum of the
selected variables is at least the right-hand side. -/
def satisfies (c : List ℕ × ℕ) (x : ℕ → ℕ) : Prop := c.2 ≤ (c.1.map x).sum

/-- Feasibility: every constraint of the built model holds. -/
def feasible (demand : List ℕ) (x : ℕ → ℕ) : Prop :=
  ∀ c ∈ buildConstraints demand, satisfies c x

/-- The objective `lpSum([x[i] for i in n_days])`. -/
def totalStaff (x : ℕ → ℕ) : ℕ := (n_days.map x).sum

/-- An optimal solution: feasible and of minimal objective value. -/
def isOptimal (demand : List ℕ) (x : ℕ → ℕ) : Prop :=
  feasible demand x ∧ ∀ y, feasible demand y → totalStaff x ≤ totalStaff y

/-- The schedule matrix of the notebook:
`dict_sch[day] = [dct_work[day] if i in list_in[day] else 0 for i in n_days]`,
rows indexed by start day, columns by calendar day. -/
def dict_sch (x : ℕ → ℕ) : List (List ℕ) :=
  n_days.map (fun day => n_days.map (fun i => if i ∈ list_in.getD day [] then x day else 0))

/-- The solution printed by the notebook run:
17, 14, 6, 0, 11, 0, 3 workers on shifts Monday…Sunday. -/
def xOpt : ℕ → ℕ := fun s => [17, 14, 6, 0, 11, 0, 3].getD s 0

/-- §4.1 of the spec: `on_duty_days(s) = { (s + k) mod C : k in [0, W) }`
for C = 7, W = 5. -/
def onDutySpec (s : ℕ) : Finset ℕ := (Finset.range 5).image (fun k => (s + k) % 7)

/-- §4.1 of the spec: `off_duty_days(s) = { (s + k) mod C : k in [W, W+R) }`
for C = 7, W = 5, R = 2. -/
def offDutySpec (s : ℕ) : Finset ℕ := (Finset.Ico 5 7).image (fun k => (s + k) % 7)

/-- The start days covering day `d` according to the spec:
`{ s : d ∈ on_duty_days(s) }`. -/
def coverSet (d : ℕ) : Finset ℕ := (Finset.range 7).filter (fun s => d ∈ onDutySpec s)

/-- The days on which shift `s` is excluded from the coverage sum by the
code's constraint loop: day `d` lists `s` in `list_excl[d]`. -/
def offDutyCode (s : ℕ) : Finset ℕ :=
  (Finset.range 7).filter (fun d => s ∈ list_excl.getD d [])

/-- §8 of the spec, coverage written with `on_duty_days`:
for every day `d < 7`, `sum over s with d in on_duty_days(s) of x s ≥ demand[d]`. -/
def specFeasible (demand : List ℕ) (x : ℕ → ℕ) : Prop :=
  ∀ d < 7, demand.getD d 0 ≤ (coverSet d).sum x

/-- Evaluating the model on an explicit demand vector of length 7. -/
lemma buildConstraints_explicit (a0 a1 a2 a3 a4 a5 a6 : ℕ) :
    buildConstraints [a0, a1, a2, a3, a4, a5, a6] =
      [([0, 3, 4, 5, 6], a0), ([0, 1, 4, 5, 6], a1), ([0, 1, 2, 5, 6], a2),
       ([0, 1, 2, 3, 6], a3), ([0, 1, 2, 3, 4], a4), ([1, 2, 3, 4, 5], a5),
       ([2, 3, 4, 5, 6], a6)] := by
  rfl

/-- Any demand list of length 7 is an explicit 7-tuple. -/
lemma demand_explicit (demand : List ℕ) (h : demand.length = 7) :
    ∃ a0 a1 a2 a3 a4 a5 a6, demand = [a0, a1, a2, a3, a4, a5, a6] := by
  match demand, h with
  | [a0, a1, a2, a3, a4, a5, a6], _ => exact ⟨a0, a1, a2, a3, a4, a5, a6, rfl⟩

/-- Feasibility on an explicit demand vector unfolds to the seven
inequalities of the model. -/
lemma feasible_iff (a0 a1 a2 a3 a4 a5 a6 : ℕ) (x : ℕ → ℕ) :
    feasible [a0, a1, a2, a3, a4, a5, a6] x ↔
      (a0 ≤ x 0 + (x 3 + (x 4 + (x 5 + x 6)))) ∧
      (a1 ≤ x 0 + (x 1 + (x 4 + (x 5 + x 6)))) ∧
      (a2 ≤ x 0 + (x 1 + (x 2 + (x 5 + x 6)))) ∧
      (a3 ≤ x 0 + (x 1 + (x 2 + (x 3 + x 6)))) ∧
      (a4 ≤ x 0 + (x 1 + (x 2 + (x 3 + x 4)))) ∧
      (a5 ≤ x 1 + (x 2 + (x 3 + (x 4 + x 5)))) ∧
      (a6 ≤ x 2 + (x 3 + (x 4 + (x 5 + x 6)))) := by
  simp [feasible, buildConstraints_explicit, satisfies]

/-- The objective is the sum of the seven variables. -/
lemma totalStaff_eval (x : ℕ → ℕ) :
    totalStaff x = x 0 + (x 1 + (x 2 + (x 3 + (x 4 + (x 5 + x 6))))) := by
  simp [totalStaff, n_days]
  rfl

/-- C5: for every start day `s` in `[0,7)`, the working-day list obtained by
slicing the tripled circular day list over `range(s, s+5)` equals, as a set
of days, `{ (s + k) mod 7 : k in [0, 5) }`. -/
theorem C5_working_days_are_modular (s : Fin 7) :
    (list_in.getD s.val []).toFinset = onDutySpec s.val := by
  revert s; decide

/-- C6: for every start day `s`, the on-duty day set (from `list_in`) and the
off-duty day set (the days whose exclusion list `list_excl[d]` names `s`) are
disjoint, the off-duty set equals `{ (s + k) mod 7 : k in [5, 7) }`, and the
union of the two sets is the full cycle `{0, …, 6}`. -/
theorem C6_on_off_partition (s : Fin 7) :
    Disjoint ((list_in.getD s.val []).toFinset) (offDutyCode s.val) ∧
      offDutyCode s.val = offDutySpec s.val ∧
      (list_in.getD s.val []).toFinset ∪ offDutyCode s.val = Finset.range 7 := by
  revert s; decide

/-- C7: every calendar day `d` belongs to `on_duty_days(s)` for exactly 5 of
the 7 start days, and the day-`d` coverage constraint built by the model sums
exactly 5 of the 7 decision variables. -/
theorem C7_each_day_covered_by_five (d : Fin 7) :
    (coverSet d.val).card = 5 ∧
      (((buildConstraints n_staff).getD d.val ([], 0)).1).length = 5 := by
  revert d; decide

/-- C10: the tripled list `n_days_c` has length 21, and for every element `i`
of `n_days_c`, every index `j` used by `range(i, i+5)` and by
`range(i+1, i+3)` satisfies `j < 21`, so the slicing never reads past the end
of the list. -/
theorem C10_slicing_in_bounds :
    n_days_c.length = 21 ∧
      ∀ i ∈ n_days_c,
        (∀ j ∈ List.range' i 5, j < n_days_c.length) ∧
        (∀ j ∈ List.range' (i + 1) 2, j < n_days_c.length) := by
  decide

/-- Witness for C10 at the element `i = 6` of `n_days_c`. -/
theorem C10_slicing_in_bounds_witness :
    6 ∈ n_days_c ∧
      (∀ j ∈ List.range' 6 5, j < n_days_c.length) ∧
      (∀ j ∈ List.range' 7 2, j < n_days_c.length) :=
  ⟨by decide, C10_slicing_in_bounds.2 6 (by decide)⟩

/-- C4: for every solution `x`, the schedule matrix has
`matrix[s][d] = x s` if `d ∈ on_duty_days(s)` and `0` otherwise, and the
objective value equals the sum over `s` of `x s`. -/
theorem C4_matrix_consistency (x : ℕ → ℕ) :
    (∀ s : Fin 7, ∀ d : Fin 7,
      ((dict_sch x).getD s.val []).getD d.val 0 =
        if d.val ∈ onDutySpec s.val then x s.val else 0) ∧
      totalStaff x = (Finset.range 7).sum x := by
  constructor
  · intro s d
    fin_cases s <;> fin_cases d <;> rfl
  · rw [totalStaff_eval]
    simp [Finset.sum_range_succ]
    omega

instance (c : List ℕ × ℕ) (x : ℕ → ℕ) : Decidable (satisfies c x) := by
  unfold satisfies; infer_instance

instance (demand : List ℕ) (x : ℕ → ℕ) : Decidable (feasible demand x) := by
  unfold feasible; infer_instance

instance (demand : List ℕ) (x : ℕ → ℕ) : Decidable (specFeasible demand x) := by
  unfold specFeasible; infer_instance

/-- A cover set given by an explicit duplicate-free list sums to the list sum. -/
lemma coverSet_sum_list (d : ℕ) (l : List ℕ) (hl : l.Nodup)
    (he : coverSet d = l.toFinset) (x : ℕ → ℕ) :
    (coverSet d).sum x = (l.map x).sum := by
  rw [he]
  exact List.sum_toFinset x hl

/-- Each constraint of the model on an explicit length-7 demand is equivalent
to the spec's coverage inequality for the same day. -/
lemma constraint_iff_cover (a0 a1 a2 a3 a4 a5 a6 : ℕ) (d : ℕ) (hd : d < 7) (x : ℕ → ℕ) :
    satisfies ((buildConstraints [a0, a1, a2, a3, a4, a5, a6]).getD d ([], 0)) x ↔
      [a0, a1, a2, a3, a4, a5, a6].getD d 0 ≤ (coverSet d).sum x := by
  interval_cases d
  · rw [coverSet_sum_list 0 [0, 3, 4, 5, 6] (by decide) (by decide)]; exact Iff.rfl
  · rw [coverSet_sum_list 1 [0, 1, 4, 5, 6] (by decide) (by decide)]; exact Iff.rfl
  · rw [coverSet_sum_list 2 [0, 1, 2, 5, 6] (by decide) (by decide)]; exact Iff.rfl
  · rw [coverSet_sum_list 3 [0, 1, 2, 3, 6] (by decide) (by decide)]; exact Iff.rfl
  · rw [coverSet_sum_list 4 [0, 1, 2, 3, 4] (by decide) (by decide)]; exact Iff.rfl
  · rw [coverSet_sum_list 5 [1, 2, 3, 4, 5] (by decide) (by decide)]; exact Iff.rfl
  · rw [coverSet_sum_list 6 [2, 3, 4, 5, 6] (by decide) (by decide)]; exact Iff.rfl

/-- The spec's coverage system and the code's constraint system agree on every
explicit length-7 demand. -/
lemma feasible_iff_specFeasible (a0 a1 a2 a3 a4 a5 a6 : ℕ) (x : ℕ → ℕ) :
    feasible [a0, a1, a2, a3, a4, a5, a6] x ↔ specFeasible [a0, a1, a2, a3, a4, a5, a6] x := by
  constructor
  · intro h d hd
    rw [← constraint_iff_cover a0 a1 a2 a3 a4 a5 a6 d hd x]
    refine h _ ?_
    interval_cases d <;> simp [buildConstraints_explicit]
  · intro h c hc
    rw [buildConstraints_explicit] at hc
    simp only [List.mem_cons, List.not_mem_nil, or_false] at hc
    rcases hc with hc | hc | hc | hc | hc | hc | hc <;> subst hc
    · exact (constraint_iff_cover a0 a1 a2 a3 a4 a5 a6 0 (by norm_num) x).mpr (h 0 (by norm_num))
    · exact (constraint_iff_cover a0 a1 a2 a3 a4 a5 a6 1 (by norm_num) x).mpr (h 1 (by norm_num))
    · exact (constraint_iff_cover a0 a1 a2 a3 a4 a5 a6 2 (by norm_num) x).mpr (h 2 (by norm_num))
    · exact (constraint_iff_cover a0 a1 a2 a3 a4 a5 a6 3 (by norm_num) x).mpr (h 3 (by norm_num))
    · exact (constraint_iff_cover a0 a1 a2 a3 a4 a5 a6 4 (by norm_num) x).mpr (h 4 (by norm_num))
    · exact (constraint_iff_cover a0 a1 a2 a3 a4 a5 a6 5 (by norm_num) x).mpr (h 5 (by norm_num))
    · exact (constraint_iff_cover a0 a1 a2 a3 a4 a5 a6 6 (by norm_num) x).mpr (h 6 (by norm_num))

/-- The notebook solution is feasible for the notebook demand. -/
lemma xOpt_feasible : feasible n_staff xOpt := by decide

/-- The notebook solution has objective value 51. -/
lemma xOpt_total : totalStaff xOpt = 51 := by decide

/-- No feasible assignment for the notebook demand totals fewer than 51. -/
lemma staff_lower_bound (y : ℕ → ℕ) (hy : feasible n_staff y) : 51 ≤ totalStaff y := by
  rw [show n_staff = [31, 45, 40, 40, 48, 30, 20] from rfl, feasible_iff] at hy
  rw [totalStaff_eval]
  omega

/-- The notebook solution is optimal. -/
lemma xOpt_optimal : isOptimal n_staff xOpt :=
  ⟨xOpt_feasible, fun y hy => by rw [xOpt_total]; exact staff_lower_bound y hy⟩

/-- C1: on any length-7 demand, the built model contains, for each day
`d ∈ [0,7)`, a constraint equivalent to
`sum over s with d ∈ on_duty_days(s) of x s ≥ demand[d]`, and every optimal
solution satisfies all seven coverage inequalities. -/
theorem C1_model_has_coverage_constraints (demand : List ℕ) (h : demand.length = 7) :
    (∀ d < 7, ∃ c ∈ buildConstraints demand,
        ∀ x : ℕ → ℕ, satisfies c x ↔ demand.getD d 0 ≤ (coverSet d).sum x) ∧
      ∀ x : ℕ → ℕ, isOptimal demand x → specFeasible demand x := by
  obtain ⟨a0, a1, a2, a3, a4, a5, a6, rfl⟩ := demand_explicit demand h
  constructor
  · intro d hd
    refine ⟨(buildConstraints [a0, a1, a2, a3, a4, a5, a6]).getD d ([], 0), ?_,
      constraint_iff_cover a0 a1 a2 a3 a4 a5 a6 d hd⟩
    interval_cases d <;> simp [buildConstraints_explicit]
  · intro x hx
    exact (feasible_iff_specFeasible a0 a1 a2 a3 a4 a5 a6 x).mp hx.1

/-- Witness for C1 at the notebook demand and the notebook optimum. -/
theorem C1_model_has_coverage_constraints_witness : specFeasible n_staff xOpt :=
  (C1_model_has_coverage_constraints n_staff rfl).2 xOpt xOpt_optimal

/-- C2: for every day `d`, the exclusion window built from `range(i+1, i+3)`
over the tripled day list is exactly the complement of
`{ s : d ∈ on_duty_days(s) }`; each built constraint is equivalent to the
corresponding §4.3 coverage constraint, and the two constraint systems have
the same solutions. -/
theorem C2_exclusion_window_refines_coverage (demand : List ℕ) (h : demand.length = 7) :
    (∀ d : Fin 7, (list_excl.getD d.val []).toFinset = Finset.range 7 \ coverSet d.val) ∧
      (∀ d : Fin 7, ∀ x : ℕ → ℕ,
        satisfies ((buildConstraints demand).getD d.val ([], 0)) x ↔
          demand.getD d.val 0 ≤ (coverSet d.val).sum x) ∧
      ∀ x : ℕ → ℕ, feasible demand x ↔ specFeasible demand x := by
  obtain ⟨a0, a1, a2, a3, a4, a5, a6, rfl⟩ := demand_explicit demand h
  refine ⟨by decide, ?_, feasible_iff_specFeasible a0 a1 a2 a3 a4 a5 a6⟩
  intro d x
  exact constraint_iff_cover a0 a1 a2 a3 a4 a5 a6 d.val d.isLt x

/-- Witness for C2 at the notebook demand, day 0 and the notebook optimum. -/
theorem C2_exclusion_window_refines_coverage_witness :
    (list_excl.getD 0 []).toFinset = Finset.range 7 \ coverSet 0 ∧
      (satisfies ((buildConstraints n_staff).getD 0 ([], 0)) xOpt ↔
        n_staff.getD 0 0 ≤ (coverSet 0).sum xOpt) ∧
      (feasible n_staff xOpt ↔ specFeasible n_staff xOpt) :=
  ⟨(C2_exclusion_window_refines_coverage n_staff rfl).1 0,
   (C2_exclusion_window_refines_coverage n_staff rfl).2.1 0 xOpt,
   (C2_exclusion_window_refines_coverage n_staff rfl).2.2 xOpt⟩

/-- C3: for the demand `[31, 45, 40, 40, 48, 30, 20]`, the assignment
(17, 14, 6, 0, 11, 0, 3) is feasible with total 51, and every feasible
assignment totals at least 51: the optimal objective value is exactly 51. -/
theorem C3_optimal_total_is_51 :
    (feasible n_staff xOpt ∧ totalStaff xOpt = 51) ∧
      ∀ y, feasible n_staff y → 51 ≤ totalStaff y :=
  ⟨⟨xOpt_feasible, xOpt_total⟩, staff_lower_bound⟩

/-- Witness for C3 at the notebook optimum. -/
theorem C3_optimal_total_is_51_witness : feasible n_staff xOpt ∧ 51 ≤ totalStaff xOpt :=
  ⟨by decide, C3_optimal_total_is_51.2 xOpt (by decide)⟩

/-- C8: on any length-7 demand, every feasible assignment (hence every
optimal one) has total at least `ceil(sum(demand) / 5)`. -/
theorem C8_ceil_lower_bound (demand : List ℕ) (h : demand.length = 7)
    (x : ℕ → ℕ) (hx : feasible demand x) :
    (demand.sum + 4) / 5 ≤ totalStaff x := by
  obtain ⟨a0, a1, a2, a3, a4, a5, a6, rfl⟩ := demand_explicit demand h
  rw [feasible_iff] at hx
  have hs : [a0, a1, a2, a3, a4, a5, a6].sum = a0 + a1 + a2 + a3 + a4 + a5 + a6 := by
    simp
    omega
  rw [hs, totalStaff_eval]
  omega

/-- Witness for C8 at the notebook demand and optimum: `⌈254/5⌉ = 51 ≤ 51`. -/
theorem C8_ceil_lower_bound_witness : (n_staff.sum + 4) / 5 ≤ totalStaff xOpt :=
  C8_ceil_lower_bound n_staff rfl xOpt (by decide)

/-- Modelled from the spec: the notebook hard-codes C = 7, W = 5, R = 2 and
contains no configuration object; §6 of the spec defines
`CycleConfig = {cycle_length, work_span, rest_span}`. -/
structure CycleConfig where
  cycle_length : ℕ
  work_span : ℕ
  rest_span : ℕ

/-- Modelled from the spec: the notebook contains no validation; §7 of the
spec defines the validation error kinds (demand entries are `ℕ` in this
embedding, so a negative entry cannot arise). -/
inductive ValidationError where
  | invalidDemand : ValidationError
  | invalidCycleConfig : ValidationError

/-- Modelled from the spec: `InvalidCycleConfig` is raised when
`work_span ≤ 0`, `rest_span < 0` (vacuous over `ℕ`), or
`work_span + rest_span ≠ cycle_length`. -/
def validateConfig (cfg : CycleConfig) : Except ValidationError Unit :=
  if cfg.work_span = 0 ∨ cfg.work_span + cfg.rest_span ≠ cfg.cycle_length then
    .error .invalidCycleConfig
  else .ok ()

/-- Modelled from the spec: `InvalidDemand` is raised when the demand vector
length differs from `cycle_length`. -/
def validateDemand (cfg : CycleConfig) (demand : List ℕ) : Except ValidationError Unit :=
  if demand.length ≠ cfg.cycle_length then .error .invalidDemand else .ok ()

/-- Modelled from the spec: `on_duty_days(s, cfg)` of §4.1 for an arbitrary
config. -/
def onDutyDaysCfg (cfg : CycleConfig) (s : ℕ) : Finset ℕ :=
  (Finset.range cfg.work_span).image (fun k => (s + k) % cfg.cycle_length)

/-- Modelled from the spec: the §4.3 model for an arbitrary config, one
coverage constraint (covering start days, required headcount) per day. -/
def buildModelCfg (cfg : CycleConfig) (demand : List ℕ) : List (Finset ℕ × ℕ) :=
  (List.range cfg.cycle_length).map
    (fun d => ((Finset.range cfg.cycle_length).filter (fun s => d ∈ onDutyDaysCfg cfg s),
      demand.getD d 0))

/-- Modelled from the spec: the fail-fast pipeline of §7 — all validation
runs before the model is constructed. -/
def runPipeline (cfg : CycleConfig) (demand : List ℕ) :
    Except ValidationError (List (Finset ℕ × ℕ)) :=
  match validateConfig cfg with
  | .error e => .error e
  | .ok _ =>
    match validateDemand cfg demand with
    | .error e => .error e
    | .ok _ => .ok (buildModelCfg cfg demand)

/-- C9: with work_span = 3, rest_span = 1, cycle_length = 7 the pipeline
raises `InvalidCycleConfig` for every demand vector, before any model is
constructed; in general a model is produced only after both validations
succeed. -/
theorem C9_invalid_config_fails_fast :
    (∀ demand : List ℕ,
      runPipeline ⟨7, 3, 1⟩ demand = .error .invalidCycleConfig) ∧
      ∀ cfg demand m, runPipeline cfg demand = .ok m →
        validateConfig cfg = .ok () ∧ validateDemand cfg demand = .ok () ∧
          m = buildModelCfg cfg demand := by
  constructor
  · intro demand
    rfl
  · intro cfg demand m hm
    unfold runPipeline at hm
    split at hm
    · exact absurd hm (by simp)
    · rename_i u hu
      split at hm
      · exact absurd hm (by simp)
      · rename_i v hv
        cases u
        cases v
        refine ⟨hu, hv, ?_⟩
        injection hm with hm2
        exact hm2.symm

/-- Witness for C9: the invalid config at a concrete demand, and the valid
canonical config producing its model. -/
theorem C9_invalid_config_fails_fast_witness :
    runPipeline ⟨7, 3, 1⟩ n_staff = .error .invalidCycleConfig ∧
      (validateConfig ⟨7, 5, 2⟩ = .ok () ∧ validateDemand ⟨7, 5, 2⟩ n_staff = .ok () ∧
        buildModelCfg ⟨7, 5, 2⟩ n_staff = buildModelCfg ⟨7, 5, 2⟩ n_staff) :=
  ⟨C9_invalid_config_fails_fast.1 n_staff,
   C9_invalid_config_fails_fast.2 ⟨7, 5, 2⟩ n_staff (buildModelCfg ⟨7, 5, 2⟩ n_staff) rfl⟩
